import Mathlib

/-!
Shallow embedding of `dh-hltb.py`, a CLI tool that enriches a local game
collection (parsed from databaze-her.cz HTML pages) with playtime data from
howlongtobeat.com.  The embedding models the core engine: the `Game` record,
record merging (`merge_game`), cache staleness (`needs_refresh`), the search
loop with its one-shot normalized-title fallback, the candidate selection
policy of `HLTB.query_hltb`, the field projection of
`HLTB.process_hltb_result`, the file-system trace of `HLTB.save_cache`, and
the exit paths of `__main__`.

Modelling conventions:
* Python strings are lists of characters (`PyStr`); Python `None` is `none`.
* Python floats (similarity scores, playtimes) are modelled as `ℚ`: the code
  only compares and copies them, never does arithmetic, so the ordered-field
  structure is irrelevant and `ℚ` reflects the comparison semantics exactly.
* `datetime` values are seconds since an epoch (`Int`); a
  `timedelta(days = d)` is `d * 86400` seconds.
* Python's stable `sorted(..., key=..., reverse=True)` is `List.mergeSort`
  with the descending comparison, which is likewise a stable sort.
-/

/-- Python strings, modelled as lists of characters. -/
abbrev PyStr := List Char

/-- Python `a if a is not None else b` field selection used by the
`merge_game` attribute loop: keep the first value unless it is `None`. -/
def pyOr {α : Type} (a b : Option α) : Option α :=
  match a with
  | none => b
  | some v => some v

/-- Python truthiness of an optional integer: `None` and `0` are falsy. -/
def pyTruthyOptInt : Option Int → Bool
  | none => false
  | some n => decide (n ≠ 0)

/-- Python truthiness of an optional rational (float): `None` and `0.0` are falsy. -/
def pyTruthyOptRat : Option ℚ → Bool
  | none => false
  | some q => decide (q ≠ 0)

/-- Python truthiness of an optional string: `None` and `''` are falsy. -/
def pyTruthyOptStr : Option PyStr → Bool
  | none => false
  | some s => decide (s ≠ [])

/-- The `Game` dataclass of `dh-hltb.py` (lines 84-100).  Every field defaults
to `None`, hence every field is an `Option`.  `_cache_keys` is a class
attribute, not an instance field, so it is not part of the record. -/
structure Game where
  dh_id : Option Int := none
  title : Option PyStr := none
  year : Option Int := none
  wantplay : Option Bool := none
  finished : Option Bool := none
  finished_ts : Option PyStr := none
  owned : Option Bool := none
  hltb_id : Option Int := none
  time_main : Option ℚ := none
  time_extra : Option ℚ := none
  time_complete : Option ℚ := none
  time_all : Option ℚ := none
  hltb_query_ts : Option PyStr := none
deriving DecidableEq

/-- The error raised by `merge_game` when the two entries have different
`dh_id` (a `ValueError` in the source). -/
inductive MergeError
  | identityMismatch
deriving DecidableEq

/-- `merge_game` (lines 157-167): if the two entries share `dh_id`, start from
a copy of `entry1` and replace each `None` attribute by `entry2`'s value;
otherwise raise.  Note Python's `!=` on `None`-able ints agrees with equality
on `Option Int` (in particular two `None` ids compare equal and merge). -/
def merge_game (entry1 entry2 : Game) : Except MergeError Game :=
  if entry1.dh_id ≠ entry2.dh_id then
    .error .identityMismatch
  else
    .ok
      { dh_id := pyOr entry1.dh_id entry2.dh_id
        title := pyOr entry1.title entry2.title
        year := pyOr entry1.year entry2.year
        wantplay := pyOr entry1.wantplay entry2.wantplay
        finished := pyOr entry1.finished entry2.finished
        finished_ts := pyOr entry1.finished_ts entry2.finished_ts
        owned := pyOr entry1.owned entry2.owned
        hltb_id := pyOr entry1.hltb_id entry2.hltb_id
        time_main := pyOr entry1.time_main entry2.time_main
        time_extra := pyOr entry1.time_extra entry2.time_extra
        time_complete := pyOr entry1.time_complete entry2.time_complete
        time_all := pyOr entry1.time_all entry2.time_all
        hltb_query_ts := pyOr entry1.hltb_query_ts entry2.hltb_query_ts }

/-- Seconds in one day: `datetime.timedelta(days = d)` equals `d * 86400`
seconds. -/
def secondsPerDay : Int := 86400

/-- `HLTB.needs_refresh` (lines 405-414).  Timestamps are seconds since an
epoch; a missing (or empty, hence falsy) timestamp is `none`.  `now_ts` is
the current UTC time, `cache_ttl` the `--cache-ttl` argument in days. -/
def needs_refresh (cache_ttl : Int) (now_ts : Int) (hltb_query_ts : Option Int) : Bool :=
  match hltb_query_ts with
  | none => true
  | some cache_ts =>
    if cache_ttl ≤ 0 then
      true
    else
      decide (now_ts - cache_ts > cache_ttl * secondsPerDay)

/-- Python `str.replace(old, new)` for single-character patterns: a
character-wise map. -/
def pyReplace (old new : Char) (s : PyStr) : PyStr :=
  s.map fun c => if c = old then new else c

/-- Python `str.split()` with no argument: split on runs of whitespace,
dropping empty pieces. -/
def pySplitWs (s : PyStr) : List PyStr :=
  (List.splitOnP (fun c => c.isWhitespace) s).filter (fun w => w ≠ [])

/-- Python `str.strip()`: drop leading and trailing whitespace. -/
def pyStrip (s : PyStr) : PyStr :=
  ((s.dropWhile (·.isWhitespace)).reverse.dropWhile (·.isWhitespace)).reverse

/-- `HLTB.more_searchable_name` (lines 446-456): replace colons, en-dashes and
hyphens with spaces, collapse whitespace runs (`' '.join(name.split())`), and
strip. -/
def more_searchable_name (name : PyStr) : PyStr :=
  let name := pyReplace ':' ' ' name
  let name := pyReplace '–' ' ' name
  let name := pyReplace '-' ' ' name
  let name := List.intercalate [' '] (pySplitWs name)
  pyStrip name

/-- Python `str.casefold()`, modelled as character-wise lower-casing (the
difference only concerns exotic characters the tool never relies on). -/
def pyCasefold (s : PyStr) : PyStr :=
  s.map Char.toLower

/-- The `equalize` inner helper of `HLTB.equal_names` (lines 431-435). -/
def equalize (name : PyStr) : PyStr :=
  pyCasefold (more_searchable_name name)

/-- `HLTB.equal_names` (lines 425-444): whether any name of the first set
equals any name of the second set after normalization and case folding. -/
def equal_names (names1 names2 : List PyStr) : Bool :=
  names1.any fun n1 => names2.any fun n2 => decide (equalize n1 = equalize n2)

/-- The slice of `howlongtobeatpy`'s `HowLongToBeatEntry` that
`dh-hltb.py` consumes.  `game_alias` is a string (possibly empty) and
`similarity` is the provider's score. -/
structure HowLongToBeatEntry where
  game_id : Int
  game_name : PyStr
  game_alias : PyStr
  similarity : ℚ
  main_story : Option ℚ := none
  main_extra : Option ℚ := none
  completionist : Option ℚ := none
  all_styles : Option ℚ := none
  release_world : Option Int := none
deriving DecidableEq

/-- The three possible outcomes of one `HLTB.query_hltb` call: the raised
`HLTBError` (connection failure), a `None` return (no confident match), or a
returned best match. -/
inductive QueryOutcome
  | connectionFailure
  | noMatch
  | accepted (result : HowLongToBeatEntry)
deriving DecidableEq

/-- One entry of the `mapping.yaml` override table: a forced HLTB id and a
forced search title for a given DH id. -/
structure MappingEntry where
  hltb_id : Option Int := none
  hltb_title : PyStr := []
deriving DecidableEq

/-- The result of the `while True` search loop of `HLTB.query_hltb`
(lines 209-227), together with the list of titles actually queried.
`connFail` is the `raise HLTBError` exit; `done` carries the final title and
the final (possibly `None`) result list. -/
inductive SearchLoopResult
  | connFail (queries : List PyStr)
  | done (queries : List PyStr) (title : PyStr) (results : Option (List HowLongToBeatEntry))
deriving DecidableEq

/-- The titles queried during the search loop. -/
def SearchLoopResult.queriesMade : SearchLoopResult → List PyStr
  | .connFail qs => qs
  | .done qs _ _ => qs

/-- The search loop of `HLTB.query_hltb` (lines 209-227), unrolled.  The loop
runs at most twice because `tried_our_best` is set on the only `continue`
path.  First iteration: a non-empty result list breaks out; a `None` result
(with `tried_our_best` still false) raises `HLTBError`; an empty list
normalizes the title, sets `tried_our_best` and continues.  Second iteration:
`results or tried_our_best` is true whatever `search` returns (including
`None`), so the loop always breaks with the fallback's result. -/
def search_loop (search : PyStr → Option (List HowLongToBeatEntry)) (title : PyStr) :
    SearchLoopResult :=
  match search title with
  | some (r :: rs) => .done [title] title (some (r :: rs))
  | none => .connFail [title]
  | some [] =>
    .done [title, more_searchable_name title] (more_searchable_name title)
      (search (more_searchable_name title))

/-- The descending-similarity comparison used by
`sorted(results, key=lambda x: x.similarity, reverse=True)` (line 243).
Python's `sorted` is stable, and so is `List.mergeSort`. -/
def simDesc (a b : HowLongToBeatEntry) : Bool :=
  decide (b.similarity ≤ a.similarity)

/-- The "top result name does not match the local title" test of
`HLTB.query_hltb` (lines 263-265): the exact name and the exact alias both
differ from `game.title`, and the normalized case-insensitive comparison
fails too.  (In Python a `None` `game.title` would raise inside
`equal_names`; the model is only used for games whose title is set, as
produced by `parse_dh`.) -/
def name_mismatch (game : Game) (best : HowLongToBeatEntry) : Bool :=
  decide (some best.game_name ≠ game.title) &&
  decide (some best.game_alias ≠ game.title) &&
  !(equal_names [best.game_name, best.game_alias] [game.title.getD []])

/-- The post-loop candidate selection of `HLTB.query_hltb` (lines 237-293):
`if not results` covers both the `None` fallback result and an empty list and
returns `None` (no match); otherwise the candidates are stable-sorted by
descending similarity.  With a truthy forced `hltb_id`, exactly one candidate
with that id must exist (lines 245-257).  Otherwise a top-two similarity tie
or a name mismatch of the top candidate means no good match
(lines 259-278); else the top candidate is returned (line 293). -/
def select_sorted (game : Game) (hltb_id : Option Int)
    (sortedResults : List HowLongToBeatEntry) : QueryOutcome :=
  if pyTruthyOptInt hltb_id then
    match sortedResults.filter (fun x => decide (some x.game_id = hltb_id)) with
    | [m] => .accepted m
    | _ => .noMatch
  else
    match sortedResults with
    | [] => .noMatch
    | r0 :: rest =>
      let tie : Bool :=
        match rest with
        | r1 :: _ => decide (r0.similarity = r1.similarity)
        | [] => false
      if tie || name_mismatch game r0 then .noMatch else .accepted r0

/-- The result dispatch of `HLTB.query_hltb` after the search loop: `None` or
empty results mean no match, otherwise the candidates are stable-sorted by
descending similarity and passed to `select_sorted`. -/
def select_result (game : Game) (hltb_id : Option Int)
    (results : Option (List HowLongToBeatEntry)) : QueryOutcome :=
  match results with
  | none => .noMatch
  | some [] => .noMatch
  | some (r :: rs) => select_sorted game hltb_id ((r :: rs).mergeSort simDesc)

/-- The search title chosen at the top of `HLTB.query_hltb` (lines 200-207):
the override's forced title if the game has a mapping entry, the game's own
title otherwise. -/
def query_title (mapping : Option MappingEntry) (game : Game) : PyStr :=
  match mapping with
  | some m => m.hltb_title
  | none => game.title.getD []

/-- The forced HLTB id chosen at the top of `HLTB.query_hltb`: the override's
id if the game has a mapping entry, `None` otherwise. -/
def query_target_id (mapping : Option MappingEntry) : Option Int :=
  match mapping with
  | some m => m.hltb_id
  | none => none

/-- `HLTB.query_hltb` (lines 199-293) for one game: run the search loop on the
chosen title, mapping the `HLTBError` exit to `connectionFailure`, and select
among the returned candidates.  `mapping` is the game's entry in the override
table (if any); `search` is the remote provider. -/
def query_hltb (mapping : Option MappingEntry) (game : Game)
    (search : PyStr → Option (List HowLongToBeatEntry)) : QueryOutcome :=
  match search_loop search (query_title mapping game) with
  | .connFail _ => .connectionFailure
  | .done _ _ results => select_result game (query_target_id mapping) results

/-- `HLTB.process_hltb_result` (lines 312-319): copy the four playtime fields
and the HLTB id from the accepted entry into the game and stamp the query
timestamp (`now_iso` stands for the serialized current UTC time). -/
def process_hltb_result (game : Game) (hltb_result : HowLongToBeatEntry)
    (now_iso : PyStr) : Game :=
  { game with
    time_main := hltb_result.main_story
    time_extra := hltb_result.main_extra
    time_complete := hltb_result.completionist
    time_all := hltb_result.all_styles
    hltb_id := some hltb_result.game_id
    hltb_query_ts := some now_iso }

/-- The per-game update step of `HLTB.run` (lines 337-339): a truthy (i.e.
non-`None`) query result is applied through `process_hltb_result`; a `None`
result leaves the game untouched. -/
def resolve_step (game : Game) (hltb_result : Option HowLongToBeatEntry)
    (now_iso : PyStr) : Game :=
  match hltb_result with
  | some r => process_hltb_result game r now_iso
  | none => game

/-- One persisted cache entry, as built by `HLTB.save_cache` (lines 355-359):
the six `_cache_keys` fields plus the denormalized `dh_title`. -/
structure CacheItem where
  hltb_id : Option Int := none
  time_main : Option ℚ := none
  time_extra : Option ℚ := none
  time_complete : Option ℚ := none
  time_all : Option ℚ := none
  hltb_query_ts : Option PyStr := none
  dh_title : Option PyStr := none
deriving DecidableEq

/-- The in-memory cache: a Python dict keyed by `game.dh_id`, modelled as an
assoc list in insertion order. -/
abbrev CacheMap := List (Option Int × CacheItem)

/-- `any([getattr(game, key) for key in Game._cache_keys])` (line 353):
whether any cache-relevant field of the game is truthy. -/
def cache_keys_any (game : Game) : Bool :=
  pyTruthyOptInt game.hltb_id ||
  pyTruthyOptRat game.time_main ||
  pyTruthyOptRat game.time_extra ||
  pyTruthyOptRat game.time_complete ||
  pyTruthyOptRat game.time_all ||
  pyTruthyOptStr game.hltb_query_ts

/-- The cache item built from one game in `HLTB.save_cache` (lines 355-359). -/
def make_cache_item (game : Game) : CacheItem :=
  { hltb_id := game.hltb_id
    time_main := game.time_main
    time_extra := game.time_extra
    time_complete := game.time_complete
    time_all := game.time_all
    hltb_query_ts := game.hltb_query_ts
    dh_title := game.title }

/-- Python dict assignment `cache[k] = v`: replace in place if the key is
present, else append. -/
def cache_set (cache : CacheMap) (k : Option Int) (v : CacheItem) : CacheMap :=
  match cache with
  | [] => [(k, v)]
  | (k', v') :: rest =>
    if k' = k then (k, v) :: rest else (k', v') :: cache_set rest k v

/-- The cache-update loop of `HLTB.save_cache` (lines 350-361): games with no
truthy cache-relevant field are skipped, the others overwrite their entry. -/
def update_cache (cache : CacheMap) (games : List Game) : CacheMap :=
  games.foldl
    (fun c g => if cache_keys_any g then cache_set c g.dh_id (make_cache_item g) else c)
    cache

/-- File-system operations relevant to cache persistence.  `truncateFile`
models `open(path, mode='w')` (which truncates the file on open),
`writeFile` the subsequent `write` of the full serialized cache, and
`renameFile` an atomic rename (available to the code but, as proved below,
never used by `save_cache`). -/
inductive FsOp
  | makedirs (dir : PyStr)
  | truncateFile (path : PyStr)
  | writeFile (path : PyStr) (data : CacheMap)
  | renameFile (src dst : PyStr)
deriving DecidableEq

/-- Whether a file-system operation is a rename. -/
def FsOp.isRename : FsOp → Bool
  | .renameFile _ _ => true
  | _ => false

/-- Observable content of one file on disk.  `initial` is whatever the file
held before the save; `empty` is the truncated state; `serialized d` is a
completely written serialization of the cache `d`. -/
inductive FileContent
  | absent
  | initial
  | empty
  | serialized (data : CacheMap)
deriving DecidableEq

/-- A file-system state: the content of every path. -/
def FsState := PyStr → FileContent

/-- Effect of one operation on the file-system state. -/
def applyFsOp (fs : FsState) : FsOp → FsState
  | .makedirs _ => fs
  | .truncateFile p => fun q => if q = p then .empty else fs q
  | .writeFile p d => fun q => if q = p then .serialized d else fs q
  | .renameFile src dst =>
    fun q => if q = dst then fs src else if q = src then .absent else fs q

/-- Run a sequence of file-system operations. -/
def runFsOps (fs : FsState) (ops : List FsOp) : FsState :=
  ops.foldl applyFsOp fs

/-- The file-system trace of `HLTB.save_cache` (lines 348-368): create the
cache directory, then open the store file in truncating write mode and write
the full serialized updated cache into it, in place. -/
def save_cache_ops (cachedir cache_filename : PyStr) (cache : CacheMap)
    (games : List Game) : List FsOp :=
  [ .makedirs cachedir,
    .truncateFile cache_filename,
    .writeFile cache_filename (update_cache cache games) ]

/-- How one invocation of `HLTB.run` terminates: normal completion, a
`KeyboardInterrupt`, the `HLTBError` raised on a connection failure, or any
other unexpected exception. -/
inductive RunOutcome
  | completed
  | interrupted
  | connectionError
  | unexpectedError
deriving DecidableEq

/-- Events observable in the `__main__` control flow. -/
inductive MainEvent
  | loadCacheEv
  | loadMappingEv
  | saveCacheEv
  | exportEv
  | printErrorEv
  | reraiseEv
deriving DecidableEq

/-- The event trace of `HLTB.run` (lines 321-346).  On normal completion the
method loads the cache and the mapping, processes the games and ends with
`self.save_cache()`.  On any exception the trace is cut short at an arbitrary
point `partialEvents` and the final `save_cache` of `run` is not reached. -/
def run_trace (outcome : RunOutcome) (partialEvents : List MainEvent) : List MainEvent :=
  match outcome with
  | .completed => [.loadCacheEv, .loadMappingEv] ++ partialEvents ++ [.saveCacheEv]
  | _ => partialEvents

/-- The event trace of the `__main__` block (lines 579-597): `hltb.run()` in a
`try`; `KeyboardInterrupt` prints an error, saves the cache and exits 1;
`HLTBError` prints an error, saves the cache and exits 1; any other
`BaseException` saves the cache and re-raises; normal completion proceeds to
`hltb.export()`. -/
def main_trace (outcome : RunOutcome) (partialEvents : List MainEvent) : List MainEvent :=
  match outcome with
  | .completed => run_trace .completed partialEvents ++ [.exportEv]
  | .interrupted => run_trace .interrupted partialEvents ++ [.printErrorEv, .saveCacheEv]
  | .connectionError => run_trace .connectionError partialEvents ++ [.printErrorEv, .saveCacheEv]
  | .unexpectedError => run_trace .unexpectedError partialEvents ++ [.saveCacheEv, .reraiseEv]

/-- The process exit code for each outcome: `0` on success, `1` after an
interrupt or a connection failure, and `none` (abnormal interpreter exit via
the re-raised exception) otherwise. -/
def main_exit_code : RunOutcome → Option Int
  | .completed => some 0
  | .interrupted => some 1
  | .connectionError => some 1
  | .unexpectedError => none

/-! ### Concrete inputs used by counterexamples and witnesses -/

/-- A title containing a colon, whose normalized form differs from it. -/
def cexTitle : PyStr := ['a', ':', 'b']

/-- A concrete game with that title. -/
def cexQueryGame : Game := { dh_id := some 1, title := some cexTitle }

/-- A provider that answers the original title with an empty result list and
every other query (in particular the normalized fallback) with `None`. -/
def cexSearch : PyStr → Option (List HowLongToBeatEntry) :=
  fun t => if t = cexTitle then some [] else none

/-- A provider that is unreachable from the start. -/
def instSearchNone : PyStr → Option (List HowLongToBeatEntry) :=
  fun _ => none

/-- A provider that always answers with an empty result list. -/
def instSearchEmpty : PyStr → Option (List HowLongToBeatEntry) :=
  fun _ => some []

/-- Concrete cache directory, store path and game for the save-trace facts. -/
def cexCacheDir : PyStr := ['d']

/-- Concrete cache store path. -/
def cexCacheFile : PyStr := ['f']

/-- A concrete resolved game whose cache fields are non-empty. -/
def cexCachedGame : Game :=
  { dh_id := some 1, title := some ['g'], hltb_id := some 7,
    time_main := some 10, hltb_query_ts := some ['t'] }

/-- The pre-save file-system state: every file holds its initial content. -/
def cexFsInit : FsState := fun _ => .initial

/-! ### Claim theorems -/

/-- C1, counterexample: the claim says every `None` response — on the initial
query or on the normalized fallback query — yields `ConnectionFailure`.  On
this concrete input the initial query returns an empty list and the fallback
query returns `None`, yet the outcome is `NoMatch`, not `ConnectionFailure`:
the `if results or tried_our_best: break` line exits the loop before the
`results is None` check can raise. -/
theorem fallback_none_cex :
    cexSearch (more_searchable_name cexTitle) = none ∧
    query_hltb none cexQueryGame cexSearch = .noMatch ∧
    query_hltb none cexQueryGame cexSearch ≠ .connectionFailure := by
  decide

/-- C1, amended: a `None` response on the *initial* query raises `HLTBError`
(`ConnectionFailure`), which `__main__` treats as fatal; but a `None` response
on the one-shot normalized fallback query is treated like an empty result set
and yields `NoMatch`. -/
theorem none_response_split (mapping : Option MappingEntry) (game : Game)
    (search : PyStr → Option (List HowLongToBeatEntry)) :
    (search (query_title mapping game) = none →
      query_hltb mapping game search = .connectionFailure) ∧
    (search (query_title mapping game) = some [] →
      search (more_searchable_name (query_title mapping game)) = none →
      query_hltb mapping game search = .noMatch) := by
  constructor
  · intro h
    unfold query_hltb search_loop
    rw [h]
  · intro h1 h2
    unfold query_hltb search_loop
    rw [h1, h2]
    rfl

/-- C1, witness for the amended theorem at a concrete input. -/
theorem none_response_split_inst :
    query_hltb none cexQueryGame instSearchNone = .connectionFailure :=
  (none_response_split none cexQueryGame instSearchNone).1 rfl

/-- C4: an empty (but not `None`) initial result set triggers exactly one
fallback query with the normalized title — the loop queries precisely the
original title and then its `more_searchable_name` form, nothing else — and
if the fallback also returns an empty result set the outcome is `NoMatch`. -/
theorem empty_result_single_fallback (mapping : Option MappingEntry) (game : Game)
    (search : PyStr → Option (List HowLongToBeatEntry))
    (h : search (query_title mapping game) = some []) :
    (search_loop search (query_title mapping game)).queriesMade =
      [query_title mapping game, more_searchable_name (query_title mapping game)] ∧
    (search (more_searchable_name (query_title mapping game)) = some [] →
      query_hltb mapping game search = .noMatch) := by
  constructor
  · unfold search_loop
    rw [h]
    rfl
  · intro h2
    unfold query_hltb search_loop
    rw [h, h2]
    rfl

/-- C4, witness at a concrete input. -/
theorem empty_result_single_fallback_inst :
    query_hltb none cexQueryGame instSearchEmpty = .noMatch :=
  (empty_result_single_fallback none cexQueryGame instSearchEmpty rfl).2 rfl

/-- C5: the staleness check of `needs_refresh` — a missing timestamp is always
stale; `cache_ttl ≤ 0` makes everything stale; with a positive TTL an entry
resolved exactly `cache_ttl` days ago is NOT stale, one resolved
`cache_ttl` days + 1 day ago IS stale, and in general staleness holds iff
`now - resolved_at` strictly exceeds `cache_ttl` days. -/
theorem needs_refresh_boundary (ttl now_ts ts : Int) :
    (needs_refresh ttl now_ts none = true) ∧
    (ttl ≤ 0 → ∀ t : Option Int, needs_refresh ttl now_ts t = true) ∧
    (0 < ttl → needs_refresh ttl now_ts (some (now_ts - ttl * secondsPerDay)) = false) ∧
    (0 < ttl →
      needs_refresh ttl now_ts
        (some (now_ts - ttl * secondsPerDay - secondsPerDay)) = true) ∧
    (0 < ttl →
      (needs_refresh ttl now_ts (some ts) = true ↔ now_ts - ts > ttl * secondsPerDay)) := by
  refine ⟨rfl, ?_, ?_, ?_, ?_⟩
  · intro h t
    cases t with
    | none => rfl
    | some c =>
      simp only [needs_refresh]
      rw [if_pos h]
  · intro h
    simp only [needs_refresh]
    rw [if_neg (by omega)]
    simp only [secondsPerDay, decide_eq_false_iff_not]
    omega
  · intro h
    simp only [needs_refresh]
    rw [if_neg (by omega)]
    simp only [secondsPerDay, decide_eq_true_eq]
    omega
  · intro h
    simp only [needs_refresh]
    rw [if_neg (by omega)]
    exact decide_eq_true_iff

/-- C5, witness at the TTL boundary with `cache_ttl = 30`. -/
theorem needs_refresh_boundary_inst :
    needs_refresh 30 0 (some (0 - 30 * secondsPerDay)) = false ∧
    needs_refresh 30 0 (some (0 - 30 * secondsPerDay - secondsPerDay)) = true :=
  ⟨(needs_refresh_boundary 30 0 0).2.2.1 (by decide),
   (needs_refresh_boundary 30 0 0).2.2.2.1 (by decide)⟩

/-- C6: merging two records with different identities always fails with the
`IdentityMismatch` error and never returns a merged record. -/
theorem merge_game_mismatch_fails (entry1 entry2 : Game)
    (h : entry1.dh_id ≠ entry2.dh_id) :
    merge_game entry1 entry2 = .error .identityMismatch ∧
    ∀ g : Game, merge_game entry1 entry2 ≠ .ok g := by
  have he : merge_game entry1 entry2 = .error .identityMismatch := by
    unfold merge_game
    rw [if_pos h]
  exact ⟨he, fun g hg => by rw [he] at hg; exact Except.noConfusion hg⟩

/-- C6, witness at concrete records with distinct identities. -/
theorem merge_game_mismatch_fails_inst :
    merge_game { dh_id := some 1 } { dh_id := some 2 } = .error .identityMismatch :=
  (merge_game_mismatch_fails { dh_id := some 1 } { dh_id := some 2 } (by decide)).1

/-- C8, counterexample: the claim says a partial or corrupt store file is
never produced because the save writes to a temporary file and renames it
into place.  On this concrete save the operation trace contains no rename at
all, and after its first two operations (directory creation and the
truncating `open(..., mode='w')`) the store file is empty — neither the
pre-save content nor the completed new store — so termination at that point
leaves a corrupt partial store. -/
theorem save_cache_atomicity_cex :
    ((save_cache_ops cexCacheDir cexCacheFile [] [cexCachedGame]).all
      fun op => !op.isRename) = true ∧
    runFsOps cexFsInit
      ((save_cache_ops cexCacheDir cexCacheFile [] [cexCachedGame]).take 2)
      cexCacheFile = .empty ∧
    runFsOps cexFsInit (save_cache_ops cexCacheDir cexCacheFile [] [cexCachedGame])
      cexCacheFile ≠ .empty ∧
    runFsOps cexFsInit (save_cache_ops cexCacheDir cexCacheFile [] [cexCachedGame])
      cexCacheFile ≠ .initial ∧
    cexFsInit cexCacheFile = .initial := by
  decide

/-- C8, amended: the save is not atomic.  `save_cache` creates the cache
directory, truncates the store file in place and then writes the serialized
updated cache directly to it; no temporary file or rename is involved, and
after the truncating open (before the write) the store file is empty whatever
it held before. -/
theorem save_cache_trace_direct_write (cachedir cache_filename : PyStr)
    (cache : CacheMap) (games : List Game) :
    save_cache_ops cachedir cache_filename cache games =
      [FsOp.makedirs cachedir, FsOp.truncateFile cache_filename,
       FsOp.writeFile cache_filename (update_cache cache games)] ∧
    ((save_cache_ops cachedir cache_filename cache games).all
      fun op => !op.isRename) = true ∧
    (∀ fs : FsState,
      runFsOps fs ((save_cache_ops cachedir cache_filename cache games).take 2)
        cache_filename = .empty) := by
  refine ⟨rfl, rfl, ?_⟩
  intro fs
  simp [save_cache_ops, runFsOps, applyFsOp]

/-- C9: the cache save is invoked on every exit path of a run — normal
completion, user interrupt, connection failure, and any unexpected fatal
error — and the process exits 1 after an interrupt or a connection failure
and 0 after normal completion. -/
theorem save_cache_every_exit_path (outcome : RunOutcome)
    (partialEvents : List MainEvent) :
    MainEvent.saveCacheEv ∈ main_trace outcome partialEvents ∧
    main_exit_code .interrupted = some 1 ∧
    main_exit_code .connectionError = some 1 ∧
    main_exit_code .completed = some 0 := by
  refine ⟨?_, rfl, rfl, rfl⟩
  cases outcome <;> simp [main_trace, run_trace]

/-- C10: a `None` (no match) resolution leaves the game record completely
unchanged; an accepted match modifies exactly the four playtime fields,
`hltb_id` and `hltb_query_ts`, leaving the identity, title, year, status
flags and finished date untouched. -/
theorem resolve_step_frame (game : Game) (r : HowLongToBeatEntry) (now_iso : PyStr) :
    resolve_step game none now_iso = game ∧
    (resolve_step game (some r) now_iso).dh_id = game.dh_id ∧
    (resolve_step game (some r) now_iso).title = game.title ∧
    (resolve_step game (some r) now_iso).year = game.year ∧
    (resolve_step game (some r) now_iso).wantplay = game.wantplay ∧
    (resolve_step game (some r) now_iso).finished = game.finished ∧
    (resolve_step game (some r) now_iso).finished_ts = game.finished_ts ∧
    (resolve_step game (some r) now_iso).owned = game.owned ∧
    (resolve_step game (some r) now_iso).time_main = r.main_story ∧
    (resolve_step game (some r) now_iso).time_extra = r.main_extra ∧
    (resolve_step game (some r) now_iso).time_complete = r.completionist ∧
    (resolve_step game (some r) now_iso).time_all = r.all_styles ∧
    (resolve_step game (some r) now_iso).hltb_id = some r.game_id ∧
    (resolve_step game (some r) now_iso).hltb_query_ts = some now_iso :=
  ⟨rfl, rfl, rfl, rfl, rfl, rfl, rfl, rfl, rfl, rfl, rfl, rfl, rfl, rfl⟩

/-! ### Top-similarity characterization of the free-text selection

The free-text selection only inspects the first two entries of the stable
descending sort, so its outcome is determined by which candidates attain the
maximal similarity.  The lemmas below make that precise and yield invariance
of the outcome under reordering of the provider's list. -/

/-- The maximal similarity in a candidate list (`0` for the empty list, which
never reaches the ranking code). -/
def topSim : List HowLongToBeatEntry → ℚ
  | [] => 0
  | r :: rs => rs.foldl (fun m x => max m x.similarity) r.similarity

/-- The candidates attaining the maximal similarity, in list order. -/
def topFilter (l : List HowLongToBeatEntry) : List HowLongToBeatEntry :=
  l.filter fun x => decide (x.similarity = topSim l)

theorem foldl_max_init_le (l : List HowLongToBeatEntry) (init : ℚ) :
    init ≤ l.foldl (fun m x => max m x.similarity) init := by
  induction l generalizing init with
  | nil => exact le_refl _
  | cons a t ih =>
    exact le_trans (le_max_left _ _) (ih (max init a.similarity))

theorem foldl_max_le_of_mem {l : List HowLongToBeatEntry} {x : HowLongToBeatEntry}
    (hx : x ∈ l) (init : ℚ) :
    x.similarity ≤ l.foldl (fun m x => max m x.similarity) init := by
  induction l generalizing init with
  | nil => cases hx
  | cons a t ih =>
    rcases List.mem_cons.mp hx with rfl | hx2
    · exact le_trans (le_max_right _ _) (foldl_max_init_le t _)
    · exact ih hx2 _

theorem foldl_max_attained (l : List HowLongToBeatEntry) (init : ℚ) :
    l.foldl (fun m x => max m x.similarity) init = init ∨
    ∃ x ∈ l, l.foldl (fun m x => max m x.similarity) init = x.similarity := by
  induction l generalizing init with
  | nil => exact Or.inl rfl
  | cons a t ih =>
    rcases ih (max init a.similarity) with h | ⟨x, hx, heq⟩
    · rcases le_total init a.similarity with hle | hle
      · exact Or.inr ⟨a, List.mem_cons_self a t, by
          simpa [max_eq_right hle] using h⟩
      · exact Or.inl (by simpa [max_eq_left hle] using h)
    · exact Or.inr ⟨x, List.mem_cons_of_mem _ hx, heq⟩

theorem sim_le_topSim {l : List HowLongToBeatEntry} {x : HowLongToBeatEntry}
    (hx : x ∈ l) : x.similarity ≤ topSim l := by
  cases l with
  | nil => cases hx
  | cons a t =>
    rcases List.mem_cons.mp hx with rfl | hx2
    · exact foldl_max_init_le t _
    · exact foldl_max_le_of_mem hx2 _

theorem topSim_attained {l : List HowLongToBeatEntry} (h : l ≠ []) :
    ∃ x ∈ l, topSim l = x.similarity := by
  cases l with
  | nil => exact absurd rfl h
  | cons a t =>
    rcases foldl_max_attained t a.similarity with heq | ⟨x, hx, heq⟩
    · exact ⟨a, List.mem_cons_self a t, heq⟩
    · exact ⟨x, List.mem_cons_of_mem _ hx, heq⟩

theorem topSim_perm {l l' : List HowLongToBeatEntry} (h : List.Perm l l') :
    topSim l = topSim l' := by
  cases l with
  | nil =>
    have : l' = [] := h.symm.eq_nil
    rw [this]
  | cons a t =>
    have hl' : l' ≠ [] := by
      intro he
      rw [he] at h
      exact List.cons_ne_nil a t h.eq_nil
    obtain ⟨x, hx, hex⟩ := topSim_attained (l := a :: t) (List.cons_ne_nil a t)
    obtain ⟨y, hy, hey⟩ := topSim_attained hl'
    apply le_antisymm
    · rw [hex]
      exact sim_le_topSim (h.mem_iff.mp hx)
    · rw [hey]
      exact sim_le_topSim (h.mem_iff.mpr hy)

theorem simDesc_trans : ∀ (a b c : HowLongToBeatEntry),
    simDesc a b → simDesc b c → simDesc a c := by
  intro a b c hab hbc
  simp only [simDesc, decide_eq_true_eq] at *
  exact le_trans hbc hab

theorem simDesc_total : ∀ (a b : HowLongToBeatEntry), simDesc a b || simDesc b a := by
  intro a b
  simp only [simDesc]
  rcases le_total a.similarity b.similarity with h | h <;> simp [h]

theorem select_sorted_free_char (game : Game) (l : List HowLongToBeatEntry)
    (hl : l ≠ []) :
    select_sorted game none (l.mergeSort simDesc) =
      (match topFilter l with
       | [c] => if name_mismatch game c then .noMatch else .accepted c
       | _ => .noMatch) := by
  obtain ⟨s0, srest, hs⟩ : ∃ s0 srest, l.mergeSort simDesc = s0 :: srest := by
    cases h : l.mergeSort simDesc with
    | nil =>
      exfalso
      have h0 := congrArg List.length h
      rw [List.length_mergeSort] at h0
      exact hl (List.length_eq_zero.mp h0)
    | cons a t => exact ⟨a, t, rfl⟩
  have hperm : List.Perm (s0 :: srest) l := by
    rw [← hs]
    exact List.mergeSort_perm l simDesc
  have hsorted := List.sorted_mergeSort simDesc_trans simDesc_total l
  rw [hs] at hsorted
  have hs0mem : s0 ∈ l := hperm.mem_iff.mp (List.mem_cons_self s0 srest)
  have hs0 : s0.similarity = topSim l := by
    apply le_antisymm (sim_le_topSim hs0mem)
    obtain ⟨x, hx, hex⟩ := topSim_attained hl
    rw [hex]
    rcases List.mem_cons.mp (hperm.mem_iff.mpr hx) with rfl | hx2
    · exact le_refl _
    · have hle := (List.pairwise_cons.mp hsorted).1 x hx2
      simpa [simDesc] using hle
  have hfp : List.Perm (topFilter l)
      ((s0 :: srest).filter fun x => decide (x.similarity = topSim l)) :=
    (hperm.filter _).symm
  rw [hs]
  cases srest with
  | nil =>
    have hl1 : l = [s0] := List.perm_singleton.mp hperm.symm
    subst hl1
    have htf : topFilter [s0] = [s0] := by
      simp [topFilter, topSim]
    rw [htf]
    rfl
  | cons s1 srest2 =>
    have hs1mem : s1 ∈ l := hperm.mem_iff.mp (by simp)
    by_cases htie : s0.similarity = s1.similarity
    · have hLHS : select_sorted game none (s0 :: s1 :: srest2) = .noMatch := by
        simp [select_sorted, htie]
      have ha := @List.filter_cons_of_pos _
        (fun x => decide (x.similarity = topSim l)) s0 (s1 :: srest2) (by simp [hs0])
      have hb := @List.filter_cons_of_pos _
        (fun x => decide (x.similarity = topSim l)) s1 srest2 (by simp [← htie, hs0])
      have hlen2 : 2 ≤ (topFilter l).length := by
        rw [hfp.length_eq, ha, hb]
        simp
      rw [hLHS]
      cases htf : topFilter l with
      | nil => rfl
      | cons a t =>
        cases t with
        | nil =>
          rw [htf] at hlen2
          simp at hlen2
        | cons b t2 => rfl
    · have hs1lt : s1.similarity < topSim l :=
        lt_of_le_of_ne (sim_le_topSim hs1mem) (fun he => htie (hs0.trans he.symm))
      have hrestnil : ((s1 :: srest2).filter
          fun x => decide (x.similarity = topSim l)) = [] := by
        apply List.filter_eq_nil_iff.mpr
        intro x hx
        have hxle : x.similarity ≤ s1.similarity := by
          rcases List.mem_cons.mp hx with rfl | hx2
          · exact le_refl _
          · have hsorted2 := (List.pairwise_cons.mp hsorted).2
            have hle := (List.pairwise_cons.mp hsorted2).1 x hx2
            simpa [simDesc] using hle
        simp only [decide_eq_true_eq]
        exact ne_of_lt (lt_of_le_of_lt hxle hs1lt)
      have ha := @List.filter_cons_of_pos _
        (fun x => decide (x.similarity = topSim l)) s0 (s1 :: srest2) (by simp [hs0])
      have hfeq : ((s0 :: s1 :: srest2).filter
          fun x => decide (x.similarity = topSim l)) = [s0] := by
        rw [ha, hrestnil]
      have htf : topFilter l = [s0] := by
        apply List.perm_singleton.mp
        rw [← hfeq]
        exact hfp
      rw [htf]
      simp [select_sorted, pyTruthyOptInt, htie]

theorem select_free_char (game : Game) (l : List HowLongToBeatEntry) :
    select_result game none (some l) =
      (match topFilter l with
       | [c] => if name_mismatch game c then .noMatch else .accepted c
       | _ => .noMatch) := by
  cases l with
  | nil => rfl
  | cons r rs => exact select_sorted_free_char game (r :: rs) (List.cons_ne_nil r rs)

theorem select_free_perm (game : Game) {l l' : List HowLongToBeatEntry}
    (h : List.Perm l l') :
    select_result game none (some l) = select_result game none (some l') := by
  rw [select_free_char, select_free_char]
  have hm : topSim l = topSim l' := topSim_perm h
  have hf : List.Perm (topFilter l) (topFilter l') := by
    unfold topFilter
    rw [hm]
    exact h.filter _
  cases htl : topFilter l with
  | nil =>
    have : topFilter l' = [] := by
      rw [htl] at hf
      exact hf.symm.eq_nil
    rw [this]
  | cons a t =>
    cases t with
    | nil =>
      have : topFilter l' = [a] := by
        rw [htl] at hf
        exact List.perm_singleton.mp hf.symm
      rw [this]
    | cons b t2 =>
      rw [htl] at hf
      have hlen : 2 ≤ (topFilter l').length := by
        rw [← hf.length_eq]
        simp
      cases htl' : topFilter l' with
      | nil =>
        exact absurd (htl' ▸ hlen) (by simp)
      | cons a' t' =>
        cases t' with
        | nil =>
          exact absurd (htl' ▸ hlen) (by simp)
        | cons b' t2' => rfl

/-- A list of length one containing `c` is `[c]`. -/
theorem length_one_mem_eq {α : Type} {l : List α} {c : α}
    (hm : c ∈ l) (hl : l.length = 1) : l = [c] := by
  cases l with
  | nil => cases hm
  | cons d ds =>
    cases ds with
    | nil =>
      have : c = d := by simpa using hm
      rw [this]
    | cons e es => simp at hl

/-- C2: on the free-text path (no forced remote id), whenever at least two
candidates attain the maximal similarity — i.e. the two best-ranked
candidates tie in similarity — the selection outcome is `NoMatch`: the
resolver never makes an arbitrary pick among tied candidates. -/
theorem top_tie_noMatch (game : Game) (results : List HowLongToBeatEntry)
    (h2 : 2 ≤ (topFilter results).length) :
    select_result game none (some results) = .noMatch := by
  rw [select_free_char]
  cases htf : topFilter results with
  | nil => rfl
  | cons a t =>
    cases t with
    | nil => exact absurd (htf ▸ h2) (by simp)
    | cons b t2 => rfl

/-- A candidate tied at the top with `tieCandB`. -/
def tieCandA : HowLongToBeatEntry :=
  { game_id := 1, game_name := ['x'], game_alias := [], similarity := 1 }

/-- A second candidate with the same top similarity. -/
def tieCandB : HowLongToBeatEntry :=
  { game_id := 2, game_name := ['y'], game_alias := [], similarity := 1 }

/-- A candidate with a strictly lower similarity. -/
def lowCand : HowLongToBeatEntry :=
  { game_id := 3, game_name := ['z'], game_alias := [], similarity := 0 }

/-- C2, witness: two candidates with identical top similarity yield `NoMatch`. -/
theorem top_tie_noMatch_inst :
    select_result cexQueryGame none (some [tieCandA, tieCandB]) = .noMatch :=
  top_tie_noMatch cexQueryGame [tieCandA, tieCandB] (by decide)

/-- C3: on the override path (a forced remote id `t`, truthy in Python), if
exactly one candidate carries id `t` then that candidate is accepted, and if
the number of candidates carrying `t` differs from one (zero or several) the
outcome is `NoMatch` — never an automatic pick among ambiguous duplicates. -/
theorem override_exact_one_match (game : Game) (t : Int) (ht : t ≠ 0)
    (results : List HowLongToBeatEntry) :
    (∀ c ∈ results, c.game_id = t →
      (results.countP fun x => decide (x.game_id = t)) = 1 →
      select_result game (some t) (some results) = .accepted c) ∧
    ((results.countP fun x => decide (x.game_id = t)) ≠ 1 →
      select_result game (some t) (some results) = .noMatch) := by
  cases results with
  | nil =>
    exact ⟨fun c hc => absurd hc (List.not_mem_nil c), fun _ => rfl⟩
  | cons r rs =>
    have hperm := List.mergeSort_perm (r :: rs) simDesc
    have htt : pyTruthyOptInt (some t) = true := by
      simp [pyTruthyOptInt, ht]
    have hsel : select_result game (some t) (some (r :: rs)) =
        (match ((r :: rs).mergeSort simDesc).filter
            (fun x => decide (some x.game_id = some t)) with
         | [m] => QueryOutcome.accepted m
         | _ => QueryOutcome.noMatch) := by
      show select_sorted game (some t) ((r :: rs).mergeSort simDesc) = _
      unfold select_sorted
      rw [if_pos htt]
    have hpred : (fun x : HowLongToBeatEntry => decide (some x.game_id = some t))
        = (fun x => decide (x.game_id = t)) := by
      funext x
      simp
    have hpf : List.Perm
        (((r :: rs).mergeSort simDesc).filter
          (fun x => decide (some x.game_id = some t)))
        ((r :: rs).filter (fun x => decide (some x.game_id = some t))) :=
      hperm.filter _
    have hlen : (((r :: rs).mergeSort simDesc).filter
          (fun x => decide (some x.game_id = some t))).length
        = (r :: rs).countP (fun x => decide (x.game_id = t)) := by
      rw [hpf.length_eq, hpred, ← List.countP_eq_length_filter]
    constructor
    · intro c hc hcid hcount
      have hcmem : c ∈ (r :: rs).filter (fun x => decide (some x.game_id = some t)) :=
        List.mem_filter.mpr ⟨hc, by simp [hcid]⟩
      have hcmem2 : c ∈ ((r :: rs).mergeSort simDesc).filter
          (fun x => decide (some x.game_id = some t)) := hpf.mem_iff.mpr hcmem
      have hl1 : (((r :: rs).mergeSort simDesc).filter
          (fun x => decide (some x.game_id = some t))).length = 1 := by
        rw [hlen, hcount]
      have hFc := length_one_mem_eq hcmem2 hl1
      rw [hsel, hFc]
    · intro hcount
      rw [hsel]
      cases hF : ((r :: rs).mergeSort simDesc).filter
          (fun x => decide (some x.game_id = some t)) with
      | nil => rfl
      | cons d ds =>
        cases ds with
        | nil =>
          exfalso
          apply hcount
          rw [← hlen, hF]
          rfl
        | cons e es => rfl

/-- A candidate carrying the forced id 999. -/
def overrideCand : HowLongToBeatEntry :=
  { game_id := 999, game_name := ['x'], game_alias := [], similarity := 1 }

/-- C3, witness: with forced id 999 and exactly one candidate carrying it,
that candidate is accepted; with a duplicated id the outcome is `NoMatch`. -/
theorem override_exact_one_match_inst :
    select_result cexQueryGame (some 999) (some [overrideCand, lowCand]) =
      .accepted overrideCand ∧
    select_result cexQueryGame (some 999) (some [overrideCand, overrideCand]) =
      .noMatch :=
  ⟨(override_exact_one_match cexQueryGame 999 (by decide)
      [overrideCand, lowCand]).1 overrideCand (by decide) (by decide) (by decide),
   (override_exact_one_match cexQueryGame 999 (by decide)
      [overrideCand, overrideCand]).2 (by decide)⟩

/-- C7: on the free-text path the outcome for a fixed candidate list is a
pure function of that list (determinism is inherent in the embedding), and
swapping the positions of two candidates with distinct similarity scores in
the provider's list does not change the outcome.  (The proof goes through
invariance under arbitrary permutations: the outcome only depends on the set
of candidates attaining the maximal similarity.) -/
theorem select_swap_invariant (game : Game) (a b : HowLongToBeatEntry)
    (l₁ l₂ l₃ : List HowLongToBeatEntry)
    (hab : a.similarity ≠ b.similarity) :
    select_result game none (some (l₁ ++ a :: (l₂ ++ b :: l₃))) =
      select_result game none (some (l₁ ++ b :: (l₂ ++ a :: l₃))) := by
  apply select_free_perm
  apply List.Perm.append_left
  exact ((List.Perm.cons a List.perm_middle).trans
    (List.Perm.swap b a (l₂ ++ l₃))).trans
    (List.Perm.cons b List.perm_middle.symm)

/-- C7, witness: swapping two concrete candidates with distinct similarities
leaves the outcome unchanged. -/
theorem select_swap_invariant_inst :
    select_result cexQueryGame none (some [tieCandA, lowCand]) =
      select_result cexQueryGame none (some [lowCand, tieCandA]) :=
  select_swap_invariant cexQueryGame tieCandA lowCand [] [] [] (by decide)
